import Mathlib

/-!
Verification of the hand/face tracking pipeline (`src/utils/hand_processor.py`,
`src/app/archive/main2.py`) against its natural-language specification.

The Python code is shallowly embedded: landmark sets become lists of records
with exact rational coordinates (Python float arithmetic is modelled exactly),
indexing that can raise `IndexError` becomes `List.getElem?`, a `try/except`
fallback becomes the `none`/default branch of an `Option` match, and the
real-valued formulas involving `sqrt`/`arctan2` are embedded over `ℝ`.
-/

/-- A single MediaPipe landmark: normalized coordinates, as stored in
`landmarks.landmark[i]` (fields `x`, `y`, `z`). -/
structure Landmark where
  x : ℚ
  y : ℚ
  z : ℚ
deriving DecidableEq, Repr

/-- Embedding of `HandProcessor.judge_palm_up` (hand_processor.py lines 69-91).
The body first reads `landmark[5]` and `landmark[17]` (unused `point5`,
`point17`), then compares `landmark[8].x` with `landmark[20].x`; the comparison
direction depends on `handedness == "Left"`.  Any failed landmark access raises
inside the `try`, and the `except` clause returns `False`. -/
def judge_palm_up (lms : List Landmark) (handedness : String) : Bool :=
  match lms[5]?, lms[17]?, lms[8]?, lms[20]? with
  | some _, some _, some lm8, some lm20 =>
      if handedness == "Left" then decide (lm8.x < lm20.x) else decide (lm8.x > lm20.x)
  | _, _, _, _ => false

/-- A 21-landmark hand whose index-fingertip (8) and pinky-fingertip (20)
x-coordinates coincide; used to separate the palm-up test from its claimed
handedness symmetry. -/
def degenerateHand : List Landmark := List.replicate 21 ⟨0, 0, 0⟩

/-- Claim C2 (as stated) is false: with identical fingertip x-coordinates
(`x8 = x20`) both the Left and the Right palm-up test return `false`, so the
Left result is not the negation of the Right result. -/
theorem judge_palm_up_not_always_inverted :
    ¬ (judge_palm_up degenerateHand "Left" = !judge_palm_up degenerateHand "Right") := by
  decide

/-- Claim C2 (amended): for a landmark set on which no access fails
(landmarks 5, 17, 8, 20 all present) and whose index-fingertip and
pinky-fingertip x-coordinates differ, the palm-up test with handedness Left is
the logical negation of the test with handedness Right. -/
theorem judge_palm_up_handedness_inverted (lms : List Landmark)
    (lm8 lm20 : Landmark)
    (h5 : lms[5]?.isSome) (h17 : lms[17]?.isSome)
    (h8 : lms[8]? = some lm8) (h20 : lms[20]? = some lm20)
    (hne : lm8.x ≠ lm20.x) :
    judge_palm_up lms "Left" = !judge_palm_up lms "Right" := by
  obtain ⟨lm5, h5'⟩ := Option.isSome_iff_exists.mp h5
  obtain ⟨lm17, h17'⟩ := Option.isSome_iff_exists.mp h17
  unfold judge_palm_up
  rw [h5', h17', h8, h20]
  simp only [String.reduceEq, if_true, if_false, reduceIte]
  rcases lt_trichotomy lm8.x lm20.x with h | h | h
  · simp [h, not_lt.mpr (le_of_lt h), asymm h]
  · exact absurd h hne
  · simp [h, not_lt.mpr (le_of_lt h), asymm h]

/-- Concrete instantiation of the amended claim C2: a hand with
`x8 = 0 < x20 = 1` satisfies all hypotheses, and the Left/Right results
are indeed negations of each other. -/
theorem judge_palm_up_handedness_inverted_witness :
    judge_palm_up (List.replicate 20 ⟨0,0,0⟩ ++ [⟨1,0,0⟩]) "Left"
      = !judge_palm_up (List.replicate 20 ⟨0,0,0⟩ ++ [⟨1,0,0⟩]) "Right" :=
  judge_palm_up_handedness_inverted _ ⟨0,0,0⟩ ⟨1,0,0⟩
    (by rfl) (by rfl) (by rfl) (by rfl) (by norm_num)

/-- Claim C10: whenever a landmark access inside the palm-up test fails (any of
landmarks 5, 17, 8, 20 missing — in Python, an `IndexError` caught by the
`except` clause), the test returns `false` for every handedness, so the error
never propagates to the caller. -/
theorem judge_palm_up_exception_returns_false (lms : List Landmark) (handedness : String)
    (h : lms[5]? = none ∨ lms[17]? = none ∨ lms[8]? = none ∨ lms[20]? = none) :
    judge_palm_up lms handedness = false := by
  unfold judge_palm_up
  rcases h with h | h | h | h <;> rw [h] <;>
    cases h5 : lms[5]? <;> cases h17 : lms[17]? <;> cases h8 : lms[8]? <;> cases h20 : lms[20]? <;>
    simp_all

/-- Concrete instantiation of claim C10: a hand landmark list with only 9
landmarks (landmark 20 missing) makes the palm-up test return `false`. -/
theorem judge_palm_up_exception_returns_false_witness :
    judge_palm_up (List.replicate 9 ⟨0,0,0⟩) "Left" = false :=
  judge_palm_up_exception_returns_false (List.replicate 9 ⟨0,0,0⟩) "Left"
    (Or.inr (Or.inr (Or.inr (by decide))))

/-- The 2D Euclidean distance between the middle-finger-base landmark
(`landmark[9]`) and the wrist landmark (`landmark[0]`), as computed in
`process_hand_landmarks` (hand_processor.py line 158):
`sqrt((l9.x - l0.x)**2 + (l9.y - l0.y)**2)`. -/
noncomputable def base_wrist_dist (lm9 lm0 : Landmark) : ℝ :=
  Real.sqrt (((lm9.x : ℝ) - (lm0.x : ℝ)) ^ 2 + ((lm9.y : ℝ) - (lm0.y : ℝ)) ^ 2)

/-- The single-camera depth estimate `hand_z` of `process_hand_landmarks`
(hand_processor.py lines 158-159): the base-to-wrist distance offset by
`0.18`, clamped to non-negative (`max(0, hand_z)`), then scaled by `2`. -/
noncomputable def hand_z_single (lm9 lm0 : Landmark) : ℝ :=
  max 0 (base_wrist_dist lm9 lm0 - 0.18) * 2

/-- For landmark pairs lying on the x-axis at distance `q`, the base-to-wrist
distance evaluates to `q`. -/
theorem base_wrist_dist_axis (q : ℚ) (hq : 0 ≤ q) :
    base_wrist_dist ⟨q, 0, 0⟩ ⟨0, 0, 0⟩ = (q : ℝ) := by
  unfold base_wrist_dist
  have : (((q : ℝ) - ((0 : ℚ) : ℝ)) ^ 2 + (((0 : ℚ) : ℝ) - ((0 : ℚ) : ℝ)) ^ 2) = (q : ℝ) ^ 2 := by
    push_cast
    ring
  rw [this, Real.sqrt_sq (by exact_mod_cast hq)]

/-- Claim C1 (as stated) is false: the single-camera depth estimate is
strictly increasing, not non-increasing, beyond the 0.18 offset.  At
base-to-wrist distances 0.2 and 0.3 (both beyond the offset) the estimate
grows from 0.04 to 0.24. -/
theorem hand_z_single_not_nonincreasing :
    (0.18 : ℝ) < base_wrist_dist ⟨1/5, 0, 0⟩ ⟨0, 0, 0⟩ ∧
    base_wrist_dist ⟨1/5, 0, 0⟩ ⟨0, 0, 0⟩ ≤ base_wrist_dist ⟨3/10, 0, 0⟩ ⟨0, 0, 0⟩ ∧
    ¬ (hand_z_single ⟨3/10, 0, 0⟩ ⟨0, 0, 0⟩ ≤ hand_z_single ⟨1/5, 0, 0⟩ ⟨0, 0, 0⟩) := by
  have h1 : base_wrist_dist ⟨1/5, 0, 0⟩ ⟨0, 0, 0⟩ = ((1/5 : ℚ) : ℝ) :=
    base_wrist_dist_axis _ (by norm_num)
  have h2 : base_wrist_dist ⟨3/10, 0, 0⟩ ⟨0, 0, 0⟩ = ((3/10 : ℚ) : ℝ) :=
    base_wrist_dist_axis _ (by norm_num)
  refine ⟨?_, ?_, ?_⟩
  · rw [h1]; push_cast; norm_num
  · rw [h1, h2]; push_cast; norm_num
  · unfold hand_z_single
    rw [h1, h2]
    push_cast
    rw [max_eq_right (by norm_num : (0:ℝ) ≤ (3:ℝ)/10 - 0.18),
        max_eq_right (by norm_num : (0:ℝ) ≤ (1:ℝ)/5 - 0.18)]
    norm_num

/-- Claim C1 (amended): the single-camera depth estimate is monotonically
non-DEcreasing as a function of the base-to-wrist distance, and equals 0 for
every distance at or below the 0.18 offset. -/
theorem hand_z_single_monotone :
    (∀ a9 a0 b9 b0 : Landmark,
       base_wrist_dist a9 a0 ≤ base_wrist_dist b9 b0 →
       hand_z_single a9 a0 ≤ hand_z_single b9 b0) ∧
    (∀ a9 a0 : Landmark,
       base_wrist_dist a9 a0 ≤ 0.18 → hand_z_single a9 a0 = 0) := by
  constructor
  · intro a9 a0 b9 b0 h
    unfold hand_z_single
    have : max 0 (base_wrist_dist a9 a0 - 0.18) ≤ max 0 (base_wrist_dist b9 b0 - 0.18) :=
      max_le_max le_rfl (by linarith)
    linarith
  · intro a9 a0 h
    unfold hand_z_single
    rw [max_eq_left (by linarith)]
    ring

/-- Concrete instantiation of the amended claim C1: distances 0.1 ≤ 0.2 give
non-decreasing depth estimates, and distance 0.1 (below the offset) gives
depth 0. -/
theorem hand_z_single_monotone_witness :
    hand_z_single ⟨1/10, 0, 0⟩ ⟨0, 0, 0⟩ ≤ hand_z_single ⟨1/5, 0, 0⟩ ⟨0, 0, 0⟩ ∧
    hand_z_single ⟨1/10, 0, 0⟩ ⟨0, 0, 0⟩ = 0 := by
  constructor
  · exact hand_z_single_monotone.1 _ _ _ _ (by
      rw [base_wrist_dist_axis _ (by norm_num : (0:ℚ) ≤ 1/10),
          base_wrist_dist_axis _ (by norm_num : (0:ℚ) ≤ 1/5)]
      push_cast
      norm_num)
  · exact hand_z_single_monotone.2 _ _ (by
      rw [base_wrist_dist_axis _ (by norm_num : (0:ℚ) ≤ 1/10)]
      push_cast
      norm_num)

/-- The dual-camera depth value of `process_hand_landmarks2`
(hand_processor.py lines 190-195).  If the second camera's result list
(`hand_results2['multi_hand_landmarks']`) is non-empty, the depth is
`max((0.7 - x) * 2, 0)` for `x` the first hand's `landmark[9].x`; with no
detection the default is `0.5`.  Accessing a missing `landmark[9]` raises,
which aborts the surrounding iteration (`none`). -/
def dual_camera_depth (mhl2 : List (List Landmark)) : Option ℚ :=
  match mhl2 with
  | [] => some (1/2)
  | h :: _ => (h[9]?).map (fun lm9 => max ((7/10 - lm9.x) * 2) 0)

/-- Claim C7: in dual-camera mode the depth fed to the sound generator is
`max((0.7 - x) * 2, 0)` where `x` is the second camera's view of the
middle-finger-base landmark's horizontal position, and exactly `0.5` when the
second camera has no hand detection. -/
theorem dual_camera_depth_spec :
    (∀ (h : List Landmark) (rest : List (List Landmark)) (lm9 : Landmark),
       h[9]? = some lm9 →
       dual_camera_depth (h :: rest) = some (max ((7/10 - lm9.x) * 2) 0)) ∧
    dual_camera_depth [] = some (1/2) := by
  constructor
  · intro h rest lm9 h9
    simp [dual_camera_depth, h9]
  · rfl

/-- Concrete instantiation of claim C7: with the second camera seeing a hand
whose landmark 9 sits at `x = 0`, the depth is `max((0.7 - 0) * 2, 0)`, and
with no detected hand it is `0.5`. -/
theorem dual_camera_depth_spec_witness :
    dual_camera_depth [List.replicate 10 ⟨0, 0, 0⟩] = some (max ((7/10 - (0:ℚ)) * 2) 0) ∧
    dual_camera_depth [] = some (1/2) :=
  ⟨dual_camera_depth_spec.1 (List.replicate 10 ⟨0, 0, 0⟩) [] ⟨0, 0, 0⟩ rfl,
   dual_camera_depth_spec.2⟩

/-- The landmark update performed by one iteration of
`process_hand_landmarks2` (hand_processor.py lines 190-198): compute the
dual-camera depth, then assign `landmarks.landmark[9].z = hand_z`.  `none`
models the exception path (no landmark 9, or no landmark 9 in the second
camera's first hand), which aborts the iteration. -/
def process_hand_landmarks2_step (lms : List Landmark) (mhl2 : List (List Landmark)) :
    Option (List Landmark) :=
  match dual_camera_depth mhl2 with
  | none => none
  | some z =>
    match lms[9]? with
    | some lm9 => some (lms.set 9 { lm9 with z := z })
    | none => none

/-- Claim C5 (as stated) is false: the dual-camera processing step mutates the
landmark set it consumes — with no second-camera detection it overwrites
landmark 9's `z` (here `0`) with the default depth `0.5`. -/
theorem process_hand_landmarks2_step_mutates :
    process_hand_landmarks2_step (List.replicate 21 ⟨0, 0, 0⟩) [] ≠
      some (List.replicate 21 ⟨0, 0, 0⟩) := by
  intro h
  have hset : (List.replicate 21 (⟨0, 0, 0⟩ : Landmark)).set 9 ⟨0, 0, 1/2⟩ =
      List.replicate 21 ⟨0, 0, 0⟩ := by
    have h' : process_hand_landmarks2_step (List.replicate 21 ⟨0, 0, 0⟩) [] =
        some ((List.replicate 21 (⟨0, 0, 0⟩ : Landmark)).set 9 ⟨0, 0, 1/2⟩) := rfl
    exact Option.some.inj (h'.symm.trans h)
  have h9 : ((List.replicate 21 (⟨0, 0, 0⟩ : Landmark)).set 9 ⟨0, 0, 1/2⟩)[9]? =
      some ⟨0, 0, 1/2⟩ :=
    List.getElem?_set_self (by simp)
  rw [hset] at h9
  have : (⟨0, 0, 0⟩ : Landmark) = ⟨0, 0, 1/2⟩ := by
    have hr : (List.replicate 21 (⟨0, 0, 0⟩ : Landmark))[9]? = some ⟨0, 0, 0⟩ := rfl
    exact Option.some.inj (hr.symm.trans h9)
  have hz : (0 : ℚ) = 1/2 := congrArg Landmark.z this
  norm_num at hz

/-- Claim C5 (amended): the dual-camera processing step modifies exactly one
coordinate of the landmark set — landmark 9's `z`, overwritten with the
dual-camera depth; every other landmark, and landmark 9's `x` and `y`, are
unchanged. -/
theorem process_hand_landmarks2_step_only_z9 (lms : List Landmark) (lm9 : Landmark)
    (mhl2 : List (List Landmark)) (z : ℚ)
    (h9 : lms[9]? = some lm9) (hz : dual_camera_depth mhl2 = some z) :
    ∃ out, process_hand_landmarks2_step lms mhl2 = some out ∧
      out[9]? = some ⟨lm9.x, lm9.y, z⟩ ∧
      ∀ i, i ≠ 9 → out[i]? = lms[i]? := by
  refine ⟨lms.set 9 { lm9 with z := z }, ?_, ?_, ?_⟩
  · unfold process_hand_landmarks2_step
    rw [hz, h9]
  · have hlen : 9 < lms.length := (List.getElem?_eq_some_iff.mp h9).1
    exact List.getElem?_set_self hlen
  · intro i hi
    exact List.getElem?_set_ne (fun hh => hi hh.symm)

/-- Concrete instantiation of the amended claim C5: with 21 zero landmarks and
no second-camera detection, the output overwrites landmark 9's `z` with `1/2`
and leaves every other index unchanged. -/
theorem process_hand_landmarks2_step_only_z9_witness :
    ∃ out, process_hand_landmarks2_step (List.replicate 21 ⟨0, 0, 0⟩) [] = some out ∧
      out[9]? = some ⟨(0:ℚ), (0:ℚ), (1/2 : ℚ)⟩ ∧
      ∀ i, i ≠ 9 → out[i]? = (List.replicate 21 (⟨0, 0, 0⟩ : Landmark))[i]? :=
  process_hand_landmarks2_step_only_z9 (List.replicate 21 ⟨0, 0, 0⟩) ⟨0, 0, 0⟩ [] (1/2)
    rfl rfl

/-- Outcome of a `queue.Queue.put` call on a bounded queue.  `enqueued` is a
successful put; `timedOut` is a put with a finite timeout expiring on a full
queue (raising `queue.Full`); `blocked` is a put with no timeout on a full
queue, which suspends until a consumer makes room — with no consumer,
indefinitely. -/
inductive PutResult (α : Type) where
  | enqueued (q : List α)
  | timedOut
  | blocked
deriving DecidableEq

/-- Semantics of `queue.Queue(maxsize).put(x, timeout)` on current contents
`q`, with `timeout = none` meaning no timeout argument. -/
def queue_put {α : Type} (maxsize : ℕ) (q : List α) (x : α) (timeout : Option ℚ) :
    PutResult α :=
  if q.length < maxsize then .enqueued (q ++ [x])
  else
    match timeout with
    | some _ => .timedOut
    | none => .blocked

/-- The Landmark Worker's push of a detection result onto the bounded (maxsize
10) output channel: `self.hand_result_queue.put((results, frame_copy))`
(hand_processor.py line 122, identically main2.py line 166).  The call passes
no timeout. -/
def worker_result_put {α : Type} (q : List α) (x : α) : PutResult α :=
  queue_put 10 q x none

/-- Claim C3 (as stated) is false: on a full output channel the worker's put
blocks (no timeout is passed), rather than timing out and dropping the
result. -/
theorem worker_result_put_blocks_when_full :
    worker_result_put (List.replicate 10 (0 : ℕ)) 1 = PutResult.blocked := by
  decide

/-- Claim C3 (amended): the worker's result put succeeds immediately whenever
the bounded output channel has a free slot, and blocks — with no timeout,
hence potentially indefinitely — whenever the channel is full.  The result is
never dropped by the producer. -/
theorem worker_result_put_spec {α : Type} (q : List α) (x : α) :
    (10 ≤ q.length → worker_result_put q x = PutResult.blocked) ∧
    (q.length < 10 → worker_result_put q x = PutResult.enqueued (q ++ [x])) := by
  constructor
  · intro h
    unfold worker_result_put queue_put
    rw [if_neg (by omega)]
  · intro h
    unfold worker_result_put queue_put
    rw [if_pos h]

/-- Concrete instantiation of the amended claim C3: a full channel of 10
results blocks the put; a channel of 9 results accepts it. -/
theorem worker_result_put_spec_witness :
    worker_result_put (List.replicate 10 (0 : ℕ)) 1 = PutResult.blocked ∧
    worker_result_put (List.replicate 9 (0 : ℕ)) 1 =
      PutResult.enqueued (List.replicate 9 (0 : ℕ) ++ [1]) :=
  ⟨(worker_result_put_spec (List.replicate 10 0) 1).1 (by decide),
   (worker_result_put_spec (List.replicate 9 0) 1).2 (by decide)⟩

/-- How one run of the orchestrator main loop ends, as a function of the
camera read outcomes. -/
inductive RunExit where
  | streamEnded (iterationsDone : ℕ)
  | inputExhausted (iterationsDone : ℕ)
deriving DecidableEq

/-- Embedding of the read/break discipline of
`DualCameraHandFaceSoundTracker.run` (main2.py lines 193-203): each iteration
reads the face camera and breaks if `face_ret` is false, then reads the hand
camera and breaks if `hand_ret` is false.  The input models the sequence of
per-iteration `(face_ret, hand_ret)` read outcomes; the counter tallies fully
completed iterations. -/
def run_reads : List (Bool × Bool) → ℕ → RunExit
  | [], n => .inputExhausted n
  | (faceRet, handRet) :: rest, n =>
    if faceRet then
      if handRet then run_reads rest (n + 1)
      else .streamEnded n
    else .streamEnded n

/-- Claim C4 (as stated) is false: a read sequence containing exactly one
failed read — with no two consecutive failures — still terminates the run
immediately, completing zero iterations. -/
theorem run_reads_single_failure_terminates :
    ([(false, true), (true, true)] : List (Bool × Bool)).countP
        (fun r => !r.1 || !r.2) = 1 ∧
    run_reads [(false, true), (true, true)] 0 = RunExit.streamEnded 0 := by
  decide

/-- Iterations whose two reads both succeed are completed and counted. -/
theorem run_reads_skip_successes (pre rest : List (Bool × Bool)) (n : ℕ)
    (hpre : ∀ p ∈ pre, p.1 = true ∧ p.2 = true) :
    run_reads (pre ++ rest) n = run_reads rest (n + pre.length) := by
  induction pre generalizing n with
  | nil => simp
  | cons p ps ih =>
    obtain ⟨p1, p2⟩ := p
    have hp1 : p1 = true := (hpre (p1, p2) (List.mem_cons_self _ _)).1
    have hp2 : p2 = true := (hpre (p1, p2) (List.mem_cons_self _ _)).2
    subst hp1
    subst hp2
    have hstep : run_reads (((true, true) : Bool × Bool) :: (ps ++ rest)) n =
        run_reads (ps ++ rest) (n + 1) := rfl
    rw [List.cons_append, hstep, ih (n + 1) (fun q hq => hpre q (List.mem_cons_of_mem _ hq))]
    congr 1
    simp [List.length_cons]
    omega

/-- Claim C4 (amended): the orchestrator run terminates — signalling stream
end — at the very first read failure of either camera; a single failed read is
enough, and the number of completed iterations equals the number of
iterations whose reads all succeeded before it. -/
theorem run_reads_stops_at_first_failure (pre : List (Bool × Bool))
    (r : Bool × Bool) (rest : List (Bool × Bool))
    (hpre : ∀ p ∈ pre, p.1 = true ∧ p.2 = true)
    (hr : r.1 = false ∨ r.2 = false) :
    run_reads (pre ++ r :: rest) 0 = RunExit.streamEnded pre.length := by
  rw [run_reads_skip_successes pre (r :: rest) 0 hpre]
  obtain ⟨r1, r2⟩ := r
  rcases hr with h | h
  · have h1 : r1 = false := h
    subst h1
    simp [run_reads]
  · have h2 : r2 = false := h
    subst h2
    cases r1 <;> simp [run_reads]

/-- Concrete instantiation of the amended claim C4: one successful iteration
followed by a failed face read ends the run with exactly one completed
iteration. -/
theorem run_reads_stops_at_first_failure_witness :
    run_reads [(true, true), (false, true)] 0 = RunExit.streamEnded 1 :=
  run_reads_stops_at_first_failure [(true, true)] (false, true) []
    (by decide) (Or.inl rfl)

/-- One unit consumed by the Landmark Worker loop: either the `None` sentinel
frame or an actual frame. -/
inductive WorkerInput (F : Type) where
  | nullFrame
  | frame (f : F)

/-- Embedding of the Landmark Worker loop `HandProcessor.process_frame`
(hand_processor.py lines 103-128) over a finite input sequence.  `None`
frames are skipped (`continue`); detection (`hands.process` plus result
packaging) is modelled as a fallible call — an exception is caught by the
per-frame handler, logged, and the loop continues; a successful detection's
result is pushed to the output channel, modelled as the emitted list. -/
def process_frame {F R : Type} (detect : F → Except String R) :
    List (WorkerInput F) → List R
  | [] => []
  | .nullFrame :: rest => process_frame detect rest
  | .frame f :: rest =>
    match detect f with
    | .ok r => r :: process_frame detect rest
    | .error _ => process_frame detect rest

/-- The worker loop processes concatenated input segments independently: no
failure poisons later processing. -/
theorem process_frame_append {F R : Type} (detect : F → Except String R)
    (xs ys : List (WorkerInput F)) :
    process_frame detect (xs ++ ys) =
      process_frame detect xs ++ process_frame detect ys := by
  induction xs with
  | nil => rfl
  | cons x rest ih =>
    cases x with
    | nullFrame => simpa [process_frame] using ih
    | frame f =>
      cases hf : detect f <;> simp [process_frame, hf, ih]

/-- Claim C8: a frame on which detection raises is skipped — it contributes no
output and does not terminate the loop — and the next valid frame still
produces its correct result on the output channel, with all earlier and later
processing unaffected. -/
theorem process_frame_skips_bad_frame {F R : Type} (detect : F → Except String R)
    (pre post : List (WorkerInput F)) (bad good : F) (msg : String) (r : R)
    (hbad : detect bad = .error msg) (hgood : detect good = .ok r) :
    process_frame detect (pre ++ .frame bad :: .frame good :: post) =
      process_frame detect pre ++ r :: process_frame detect post := by
  rw [process_frame_append]
  simp [process_frame, hbad, hgood]

/-- A sample detector for exercising the worker loop: frame 0 is malformed and
makes detection raise; any other frame detects successfully. -/
def detect_example : ℕ → Except String ℕ :=
  fun n => if n = 0 then .error "malformed frame" else .ok n

/-- Concrete instantiation of claim C8: feeding a malformed frame then a valid
frame yields exactly the valid frame's result. -/
theorem process_frame_skips_bad_frame_witness :
    process_frame detect_example
        ([] ++ .frame 0 :: .frame 1 :: []) =
      process_frame detect_example [] ++ 1 :: process_frame detect_example [] :=
  process_frame_skips_bad_frame detect_example [] [] 0 1 "malformed frame" 1 rfl rfl

/-- One row of `face_orientation_data`: `[timestamp, yaw, pitch, roll]`
(main2.py line 259). -/
structure FaceSample where
  timestamp : ℚ
  yaw : ℚ
  pitch : ℚ
  roll : ℚ

/-- One hand's trajectory log in `hand_trajectory_data`: parallel `timestamp`,
`x`, `y`, `z` columns (main2.py lines 362-373). -/
structure HandLog where
  timestamp : List ℚ
  x : List ℚ
  y : List ℚ
  z : List ℚ

/-- The files a finalization step may produce. -/
inductive OutputFile where
  | faceCsv
  | handCsv
  | orientationPlot
  | trajectoryAnimation
deriving DecidableEq

/-- Embedding of `_save_data` (main2.py lines 515-541): the face orientation
CSV is written only if `face_orientation_data` is non-empty, and the hand
trajectories CSV only if `hand_trajectory_data` is non-empty. -/
def save_data (faceData : List FaceSample) (handData : List (ℕ × HandLog)) :
    List OutputFile :=
  (if faceData.isEmpty then [] else [.faceCsv]) ++
    (if handData.isEmpty then [] else [.handCsv])

/-- Embedding of `_create_face_orientation_plots` (main2.py lines 377-383):
with no face orientation data it warns and returns without producing a file. -/
def create_face_orientation_plots (faceData : List FaceSample) : List OutputFile :=
  if faceData.isEmpty then [] else [.orientationPlot]

/-- Embedding of `_create_3d_trajectory_animation` (main2.py lines 418-424):
with no hand trajectory data it warns and returns without producing a file. -/
def create_3d_trajectory_animation (handData : List (ℕ × HandLog)) : List OutputFile :=
  if handData.isEmpty then [] else [.trajectoryAnimation]

/-- The shutdown finalization sequence of `run` (main2.py lines 293-295):
save CSVs, then the orientation plot, then the trajectory animation.  Each
step is a total function — no combination of empty and non-empty logs can
make it fail. -/
def finalize (faceData : List FaceSample) (handData : List (ℕ × HandLog)) :
    List OutputFile :=
  save_data faceData handData ++ create_face_orientation_plots faceData ++
    create_3d_trajectory_animation handData

/-- Claim C9: for every combination of empty and non-empty session logs,
finalization produces exactly the outputs whose backing log is non-empty: the
face CSV and orientation plot iff the face log has samples, the hand CSV and
trajectory animation iff the hand log has samples.  Empty logs skip their
outputs without aborting the others. -/
theorem finalize_outputs (faceData : List FaceSample) (handData : List (ℕ × HandLog)) :
    (OutputFile.faceCsv ∈ finalize faceData handData ↔ faceData ≠ []) ∧
    (OutputFile.orientationPlot ∈ finalize faceData handData ↔ faceData ≠ []) ∧
    (OutputFile.handCsv ∈ finalize faceData handData ↔ handData ≠ []) ∧
    (OutputFile.trajectoryAnimation ∈ finalize faceData handData ↔ handData ≠ []) := by
  cases faceData <;> cases handData <;>
    simp [finalize, save_data, create_face_orientation_plots,
      create_3d_trajectory_animation]

/-- A MediaPipe FaceMesh landmark: normalized real coordinates.  Face claims
involve `arctan2`, so face geometry is embedded over `ℝ`. -/
structure FaceLandmark where
  x : ℝ
  y : ℝ
  z : ℝ

/-- Semantics of `numpy.arctan2 (y, x)`: the angle of the point `(x, y)`,
with `arctan2 (0, 0) = 0`. -/
noncomputable def arctan2 (y x : ℝ) : ℝ :=
  if 0 < x then Real.arctan (y / x)
  else if x < 0 then
    if 0 ≤ y then Real.arctan (y / x) + Real.pi else Real.arctan (y / x) - Real.pi
  else
    if 0 < y then Real.pi / 2 else if y < 0 then -(Real.pi / 2) else 0

/-- For a strictly positive second argument, `arctan2 0 x = 0`. -/
theorem arctan2_zero_of_pos (x : ℝ) (hx : 0 < x) : arctan2 0 x = 0 := by
  unfold arctan2
  rw [if_pos hx, zero_div, Real.arctan_zero]

/-- Embedding of `_calculate_face_orientation` (main2.py lines 313-352).  A
face landmark set is a partial map from MediaPipe FaceMesh indices; the body
reads the nose tip (4), the outer and inner eye corners (33, 133, 362, 263),
and computes yaw, pitch and roll in degrees via `arctan2`.  Any failed access
raises inside the `try`, and the `except` clause returns `(0, 0, 0)`. -/
noncomputable def calculate_face_orientation (lms : ℕ → Option FaceLandmark) :
    ℝ × ℝ × ℝ :=
  match lms 4, lms 33, lms 133, lms 362, lms 263 with
  | some nose_tip, some left_eye_outer, some _, some _, some right_eye_outer =>
    let eye_center_x := (left_eye_outer.x + right_eye_outer.x) / 2
    let eye_distance := |left_eye_outer.x - right_eye_outer.x|
    let yaw := arctan2 (nose_tip.x - eye_center_x) eye_distance * 180 / Real.pi
    let eye_center_y := (left_eye_outer.y + right_eye_outer.y) / 2
    let pitch := arctan2 (nose_tip.y - eye_center_y) eye_distance * 180 / Real.pi
    let roll := arctan2 (right_eye_outer.y - left_eye_outer.y)
      (right_eye_outer.x - left_eye_outer.x) * 180 / Real.pi
    (yaw, pitch, roll)
  | _, _, _, _, _ => (0, 0, 0)

/-- Claim C6: with all five canonical landmarks present the face orientation
is yaw = `arctan2` of the nose tip's horizontal offset from the outer-eye-
corner midpoint over the inter-outer-eye-corner (horizontal) distance, in
degrees; pitch the same from the vertical offset; roll the angle in degrees
of the line connecting the two outer eye corners.  For frontal, level,
symmetric landmarks all three angles are exactly 0, and whenever a required
landmark is missing the function returns `(0, 0, 0)` instead of failing. -/
theorem calculate_face_orientation_spec :
    (∀ (lms : ℕ → Option FaceLandmark) (nose leo lei rei reo : FaceLandmark),
       lms 4 = some nose → lms 33 = some leo → lms 133 = some lei →
       lms 362 = some rei → lms 263 = some reo →
       calculate_face_orientation lms =
         (arctan2 (nose.x - (leo.x + reo.x) / 2) |leo.x - reo.x| * 180 / Real.pi,
          arctan2 (nose.y - (leo.y + reo.y) / 2) |leo.x - reo.x| * 180 / Real.pi,
          arctan2 (reo.y - leo.y) (reo.x - leo.x) * 180 / Real.pi)) ∧
    (∀ (lms : ℕ → Option FaceLandmark) (nose leo lei rei reo : FaceLandmark),
       lms 4 = some nose → lms 33 = some leo → lms 133 = some lei →
       lms 362 = some rei → lms 263 = some reo →
       leo.y = reo.y → leo.x < reo.x →
       nose.x = (leo.x + reo.x) / 2 → nose.y = (leo.y + reo.y) / 2 →
       calculate_face_orientation lms = (0, 0, 0)) ∧
    (∀ lms : ℕ → Option FaceLandmark,
       (lms 4 = none ∨ lms 33 = none ∨ lms 133 = none ∨
        lms 362 = none ∨ lms 263 = none) →
       calculate_face_orientation lms = (0, 0, 0)) := by
  have hformula : ∀ (lms : ℕ → Option FaceLandmark) (nose leo lei rei reo : FaceLandmark),
      lms 4 = some nose → lms 33 = some leo → lms 133 = some lei →
      lms 362 = some rei → lms 263 = some reo →
      calculate_face_orientation lms =
        (arctan2 (nose.x - (leo.x + reo.x) / 2) |leo.x - reo.x| * 180 / Real.pi,
         arctan2 (nose.y - (leo.y + reo.y) / 2) |leo.x - reo.x| * 180 / Real.pi,
         arctan2 (reo.y - leo.y) (reo.x - leo.x) * 180 / Real.pi) := by
    intro lms nose leo lei rei reo h4 h33 h133 h362 h263
    unfold calculate_face_orientation
    rw [h4, h33, h133, h362, h263]
  refine ⟨hformula, ?_, ?_⟩
  · intro lms nose leo lei rei reo h4 h33 h133 h362 h263 hlevel hord hnx hny
    rw [hformula lms nose leo lei rei reo h4 h33 h133 h362 h263]
    have hdist : (0 : ℝ) < |leo.x - reo.x| := abs_pos.mpr (by linarith)
    have hyaw : nose.x - (leo.x + reo.x) / 2 = 0 := by rw [hnx]; ring
    have hpitch : nose.y - (leo.y + reo.y) / 2 = 0 := by rw [hny]; ring
    have hroll : reo.y - leo.y = 0 := by rw [hlevel]; ring
    rw [hyaw, hpitch, hroll, arctan2_zero_of_pos _ hdist,
        arctan2_zero_of_pos _ (by linarith : (0:ℝ) < reo.x - leo.x)]
    norm_num
  · intro lms h
    unfold calculate_face_orientation
    rcases h with h | h | h | h | h <;> rw [h] <;>
      cases h4 : lms 4 <;> cases h33 : lms 33 <;> cases h133 : lms 133 <;>
      cases h362 : lms 362 <;> cases h263 : lms 263 <;> simp_all

/-- A synthetic, perfectly frontal, level, symmetric face: outer eye corners
level at `y = 1/2` and symmetric about `x = 1/2`, nose tip at their midpoint;
inner corners present but unused. -/
noncomputable def frontal_face : ℕ → Option FaceLandmark := fun i =>
  if i = 4 then some ⟨1/2, 1/2, 0⟩
  else if i = 33 then some ⟨2/5, 1/2, 0⟩
  else if i = 133 then some ⟨9/20, 1/2, 0⟩
  else if i = 362 then some ⟨11/20, 1/2, 0⟩
  else if i = 263 then some ⟨3/5, 1/2, 0⟩
  else none

/-- Concrete instantiation of claim C6: the synthetic frontal face satisfies
the formula and yields exactly `(0, 0, 0)`, and a face with every landmark
missing also yields `(0, 0, 0)`. -/
theorem calculate_face_orientation_spec_witness :
    calculate_face_orientation frontal_face =
      (arctan2 ((1:ℝ)/2 - ((2:ℝ)/5 + (3:ℝ)/5) / 2) |(2:ℝ)/5 - (3:ℝ)/5| * 180 / Real.pi,
       arctan2 ((1:ℝ)/2 - ((1:ℝ)/2 + (1:ℝ)/2) / 2) |(2:ℝ)/5 - (3:ℝ)/5| * 180 / Real.pi,
       arctan2 ((1:ℝ)/2 - (1:ℝ)/2) ((3:ℝ)/5 - (2:ℝ)/5) * 180 / Real.pi) ∧
    calculate_face_orientation frontal_face = (0, 0, 0) ∧
    calculate_face_orientation (fun _ => none) = (0, 0, 0) :=
  ⟨calculate_face_orientation_spec.1 frontal_face
      ⟨1/2, 1/2, 0⟩ ⟨2/5, 1/2, 0⟩ ⟨9/20, 1/2, 0⟩ ⟨11/20, 1/2, 0⟩ ⟨3/5, 1/2, 0⟩
      rfl rfl rfl rfl rfl,
   calculate_face_orientation_spec.2.1 frontal_face
      ⟨1/2, 1/2, 0⟩ ⟨2/5, 1/2, 0⟩ ⟨9/20, 1/2, 0⟩ ⟨11/20, 1/2, 0⟩ ⟨3/5, 1/2, 0⟩
      rfl rfl rfl rfl rfl rfl (by norm_num) (by norm_num) (by norm_num),
   calculate_face_orientation_spec.2.2 (fun _ => none) (Or.inl rfl)⟩
